import Mathlib

/-!
Shallow embedding of the message-routing and session-state core of the
ApexcifyTechnology chatbot (src/chatpy/app.py and src/chatpy/cli_chat.py).

Python dicts keyed by session id are modelled as association lists, the
global `conversations` map as an explicit `Store` value threaded through the
functions.  Nondeterministic or external inputs (clock, uuid, random.choice,
the regex engine, the OpenAI client, json serialization) are supplied through
an explicit `Env` record, so every function is a pure function of its inputs.
Python string operations are modelled on Lean strings: `len` is the number of
code points (`String.length`), slicing acts on `String.data`, and
`str.strip`, `str.lower`, `str.startswith` and the substring test `in` are
given explicit executable definitions over `String.data` below (`pyStrip`,
`pyLower`, `pyStartsWith`, `pyContains`; ASCII case folding — no claim
depends on non-ASCII case behaviour).
-/

/-- Python `str.strip()`: remove leading and trailing whitespace. -/
def pyStrip (s : String) : String :=
  ⟨((s.data.dropWhile Char.isWhitespace).reverse.dropWhile Char.isWhitespace).reverse⟩

/-- Python `str.lower()` (ASCII case folding). -/
def pyLower (s : String) : String := ⟨s.data.map Char.toLower⟩

/-- Python `needle in haystack` on char lists: contiguous-substring test. -/
def startsWithChars : List Char → List Char → Bool
  | [], _ => true
  | _ :: _, [] => false
  | a :: as, b :: bs => a = b && startsWithChars as bs

def containsChars (needle : List Char) : List Char → Bool
  | [] => needle.isEmpty
  | b :: bs => startsWithChars needle (b :: bs) || containsChars needle bs

/-- Python `str.startswith(pre)`. -/
def pyStartsWith (s pre : String) : Bool := startsWithChars pre.data s.data

/-- A stored chat message: app.py `save_message` appends dicts with keys
id, role, message, timestamp. -/
structure Msg where
  id : String
  role : String
  message : String
  timestamp : String
deriving Repr, DecidableEq

/-- The global `conversations` dict of app.py, as an association list from
conversation id to its message list. -/
abbrev Store := List (String × List Msg)

/-- Python `conversations.get(cid)` presence-aware lookup (`cid in conversations`). -/
def store_find : Store → String → Option (List Msg)
  | [], _ => none
  | (k, v) :: rest, cid => if k = cid then some v else store_find rest cid

/-- Python `conversations[cid] = msgs`: replace the entry, creating it if absent. -/
def store_set : Store → String → List Msg → Store
  | [], cid, msgs => [(cid, msgs)]
  | (k, v) :: rest, cid, msgs =>
      if k = cid then (cid, msgs) :: rest else (k, v) :: store_set rest cid msgs

/-- Python `conversations.get(cid, [])`: a session not yet seen behaves as empty. -/
def getMsgs (st : Store) (cid : String) : List Msg := (store_find st cid).getD []

-- ===== CONSTANTS (app.py) =====

def MAX_HISTORY_LENGTH : Nat := 100

def CONTEXT_WINDOW : Nat := 8

def MAX_MESSAGE_LENGTH : Nat := 2000

/-- Python `l[-n:]` for n > 0: the last `min n (length l)` elements, in order. -/
def lastN (n : Nat) (l : List α) : List α := l.drop (l.length - n)

-- ===== VALIDATION (app.py validate_message) =====

/-- app.py `validate_message`, with the one indexing operation it performs,
`message[0]`, modelled as fallible: `none` is the case where that indexing
would raise IndexError (empty string).  The spam comparison
`message.count(message[0]) > len(message) * 0.8` is modelled over naturals as
`5 * count > 4 * len`; for the lengths that reach this check (at most
MAX_MESSAGE_LENGTH) the Python float product `len * 0.8` decides every integer
comparison exactly as the rational 4/5 does. -/
def validate_message_chk (message : String) : Option (Bool × Option String) :=
  if message = "" ∨ pyStrip message = "" then
    some (false, some "Please type a message!")
  else if message.length > MAX_MESSAGE_LENGTH then
    some (false, some ("Message too long! Maximum " ++ toString MAX_MESSAGE_LENGTH ++ " characters."))
  else
    match message.data with
    | [] => none
    | c :: _ =>
        if 5 * message.data.count c > 4 * message.data.length then
          some (false, some "Message appears to be spam.")
        else
          some (true, none)

/-- app.py `validate_message` as the total function the pipeline calls; the
`none` case of `validate_message_chk` is unreachable (proved below), so the
default supplied here is never used. -/
def validate_message (message : String) : Bool × Option String :=
  (validate_message_chk message).getD (true, none)

-- ===== SESSION STORE (app.py save_message) =====

/-- app.py `save_message`: ensure the key exists, trim the history to the last
MAX_HISTORY_LENGTH - 1 entries when it already holds at least
MAX_HISTORY_LENGTH (`conversations[cid][-MAX_HISTORY_LENGTH+1:]`), then append
the new message dict.  `newId` and `ts` stand for `uuid.uuid4()` and the
formatted `datetime.now()`. -/
def save_message (st : Store) (cid role message : String) (newId ts : String) : Store :=
  let cur := getMsgs st cid
  let cur := if cur.length ≥ MAX_HISTORY_LENGTH then lastN (MAX_HISTORY_LENGTH - 1) cur else cur
  store_set st cid (cur ++ [⟨newId, role, message, ts⟩])

/-- A sequence of `save_message` calls on one session, one per listed message
(each message carries its role, text and the environment-supplied id and
timestamp of its call). -/
def apply_saves (st : Store) (cid : String) (ms : List Msg) : Store :=
  ms.foldl (fun s m => save_message s cid m.role m.message m.id m.timestamp) st

-- ===== STORE LEMMAS =====

theorem store_find_set (st : Store) (cid : String) (l : List Msg) :
    store_find (store_set st cid l) cid = some l := by
  induction st with
  | nil => simp [store_set, store_find]
  | cons kv rest ih =>
      obtain ⟨k, v⟩ := kv
      by_cases h : k = cid
      · simp [store_set, store_find, h]
      · simp [store_set, store_find, h, ih]

theorem getMsgs_set (st : Store) (cid : String) (l : List Msg) :
    getMsgs (store_set st cid l) cid = l := by
  simp [getMsgs, store_find_set]

theorem lastN_length (n : Nat) (l : List α) : (lastN n l).length = min n l.length := by
  simp [lastN]
  omega

theorem lastN_all (n : Nat) (l : List α) (h : l.length ≤ n) : lastN n l = l := by
  have h0 : l.length - n = 0 := by omega
  simp [lastN, h0]

/-- Appending past a long list: the last `n` of `x ++ y` ignore `x` entirely
when `y` alone has at least `n` elements. -/
theorem lastN_append_right (n : Nat) (x y : List α) (h : n ≤ y.length) :
    lastN n (x ++ y) = lastN n y := by
  unfold lastN
  have harith : x.length + y.length - n = x.length + (y.length - n) := by omega
  rw [List.length_append, harith, List.drop_append]

/-- Trimming to the last `n` first does not change the last `n` of a later
concatenation. -/
theorem lastN_lastN_append (n : Nat) (l r : List α) :
    lastN n (lastN n l ++ r) = lastN n (l ++ r) := by
  by_cases h : l.length ≤ n
  · rw [lastN_all n l h]
  · have hlen : n ≤ (lastN n l ++ r).length := by
      rw [List.length_append, lastN_length]
      omega
    have hsplit : l ++ r = l.take (l.length - n) ++ (lastN n l ++ r) := by
      rw [← List.append_assoc]
      unfold lastN
      rw [List.take_append_drop]
    rw [hsplit, lastN_append_right n _ _ hlen]

/-- One `save_message` step, seen through `getMsgs`: with the invariant that
the history never exceeds the cap, the new history is the last
MAX_HISTORY_LENGTH entries of the old history with the new message appended. -/
theorem getMsgs_save (st : Store) (cid role message newId ts : String)
    (h : (getMsgs st cid).length ≤ MAX_HISTORY_LENGTH) :
    getMsgs (save_message st cid role message newId ts) cid =
      lastN MAX_HISTORY_LENGTH (getMsgs st cid ++ [⟨newId, role, message, ts⟩]) := by
  have hM : MAX_HISTORY_LENGTH = 100 := rfl
  unfold save_message
  rw [getMsgs_set]
  by_cases hc : (getMsgs st cid).length ≥ MAX_HISTORY_LENGTH
  · rw [if_pos hc]
    unfold lastN
    rw [List.length_append, List.length_singleton,
      List.drop_append_of_le_length (by omega)]
    have harith : (getMsgs st cid).length - (MAX_HISTORY_LENGTH - 1) =
        (getMsgs st cid).length + 1 - MAX_HISTORY_LENGTH := by omega
    rw [harith]
  · rw [if_neg hc]
    rw [lastN_all _ _ (by rw [List.length_append, List.length_singleton]; omega)]

theorem getMsgs_save_le (st : Store) (cid role message newId ts : String)
    (h : (getMsgs st cid).length ≤ MAX_HISTORY_LENGTH) :
    (getMsgs (save_message st cid role message newId ts) cid).length ≤ MAX_HISTORY_LENGTH := by
  rw [getMsgs_save st cid role message newId ts h, lastN_length]
  omega

/-- Folding a whole sequence of saves: the history is always the last
MAX_HISTORY_LENGTH of everything ever appended. -/
theorem getMsgs_apply_saves (ms : List Msg) (st : Store) (cid : String)
    (h : (getMsgs st cid).length ≤ MAX_HISTORY_LENGTH) :
    getMsgs (apply_saves st cid ms) cid = lastN MAX_HISTORY_LENGTH (getMsgs st cid ++ ms) := by
  induction ms generalizing st with
  | nil => simp [apply_saves, lastN_all, h]
  | cons m rest ih =>
      show getMsgs (apply_saves (save_message st cid m.role m.message m.id m.timestamp) cid rest) cid = _
      rw [ih _ (getMsgs_save_le st cid m.role m.message m.id m.timestamp h),
        getMsgs_save st cid m.role m.message m.id m.timestamp h,
        lastN_lastN_append]
      simp

-- ===== CLAIM C1 =====

/-- C1: for every session, after N appends with N > MAX_HISTORY (100), `get`
returns exactly MAX_HISTORY messages, and they are the most recently appended
messages in their original relative order: the history is the suffix of the
append sequence of length MAX_HISTORY (oldest evicted FIFO, never reordered). -/
theorem save_message_fifo_cap (cid : String) (ms : List Msg)
    (h : ms.length > MAX_HISTORY_LENGTH) :
    getMsgs (apply_saves [] cid ms) cid = ms.drop (ms.length - MAX_HISTORY_LENGTH) ∧
    (getMsgs (apply_saves [] cid ms) cid).length = MAX_HISTORY_LENGTH ∧
    ms.take (ms.length - MAX_HISTORY_LENGTH) ++ getMsgs (apply_saves [] cid ms) cid = ms := by
  have hbase : getMsgs ([] : Store) cid = [] := rfl
  have h1 : getMsgs (apply_saves [] cid ms) cid = lastN MAX_HISTORY_LENGTH ms := by
    have h2 := getMsgs_apply_saves ms [] cid (by rw [hbase]; simp)
    rw [hbase] at h2
    simpa using h2
  refine ⟨h1, ?_, ?_⟩
  · rw [h1, lastN_length]
    omega
  · rw [h1]
    exact List.take_append_drop _ _

/-- Witness for C1 at a concrete input: 101 appends leave the last 100. -/
theorem save_message_fifo_cap_witness :
    (List.replicate 101 (⟨"i", "user", "m", "t"⟩ : Msg)).length > MAX_HISTORY_LENGTH ∧
    getMsgs (apply_saves [] "s" (List.replicate 101 (⟨"i", "user", "m", "t"⟩ : Msg))) "s" =
      (List.replicate 101 (⟨"i", "user", "m", "t"⟩ : Msg)).drop
        ((List.replicate 101 (⟨"i", "user", "m", "t"⟩ : Msg)).length - MAX_HISTORY_LENGTH) :=
  ⟨by simp [MAX_HISTORY_LENGTH], (save_message_fifo_cap "s" _ (by simp [MAX_HISTORY_LENGTH])).1⟩

-- ===== VALIDATION LEMMAS =====

/-- Reduction of `validate_message_chk` past the first two checks, for a
non-empty message whose characters are `c :: cs`. -/
theorem validate_message_chk_cons (message : String) (c : Char) (cs : List Char)
    (hmd : message.data = c :: cs)
    (h1 : ¬(message = "" ∨ pyStrip message = ""))
    (h2 : ¬message.length > MAX_MESSAGE_LENGTH) :
    validate_message_chk message =
      if 5 * (c :: cs).count c > 4 * (c :: cs).length then
        some (false, some "Message appears to be spam.")
      else some (true, none) := by
  unfold validate_message_chk
  rw [if_neg h1, if_neg h2, hmd]

theorem data_cons_of_ne_empty (message : String) (hne : message ≠ "") :
    ∃ c cs, message.data = c :: cs := by
  cases hd : message.data with
  | nil =>
      exact absurd (by cases message with | mk l => cases hd; rfl) hne
  | cons c cs => exact ⟨c, cs, rfl⟩

-- ===== CLAIM C10 =====

/-- C10: validate_message is total on every string input and never raises:
the only indexing it performs, `message[0]` in the spam check, is reached
only after the emptiness check has established the message is non-empty, so
for every string (including the empty string) it returns a pair. -/
theorem validate_message_chk_total (message : String) :
    (validate_message_chk message).isSome := by
  by_cases h1 : message = "" ∨ pyStrip message = ""
  · unfold validate_message_chk
    simp [h1]
  · by_cases h2 : message.length > MAX_MESSAGE_LENGTH
    · unfold validate_message_chk
      rw [if_neg h1, if_pos h2]
      rfl
    · have hne : message ≠ "" := fun he => h1 (Or.inl he)
      obtain ⟨c, cs, hmd⟩ := data_cons_of_ne_empty message hne
      rw [validate_message_chk_cons message c cs hmd h1 h2]
      split <;> rfl

-- ===== CLAIM C2 =====

/-- C2 counterexample: in "baaaaaaaaa" the character a accounts for 9 of the
10 characters (90% > 80%), yet validate_message accepts the message, because
the code counts occurrences of the first character only (here b, once). -/
theorem validate_message_spam_counterexample :
    validate_message "baaaaaaaaa" = (true, none) ∧
    5 * ("baaaaaaaaa".data.count 'a') > 4 * ("baaaaaaaaa".data.length) := by
  constructor
  · decide
  · decide

/-- C2 (amended): validation fails exactly when the message is empty or
whitespace-only, when its length exceeds 2000, or when its first character
accounts for more than 80% of its characters; a repeated character other
than the first that dominates the message does not cause rejection. -/
theorem validate_message_reject_iff (message : String) :
    (validate_message message).1 = false ↔
      (pyStrip message = "" ∨ message.length > MAX_MESSAGE_LENGTH ∨
        (∃ c cs, message.data = c :: cs ∧
          5 * message.data.count c > 4 * message.data.length)) := by
  by_cases h1 : message = "" ∨ pyStrip message = ""
  · have htrim : pyStrip message = "" := by
      rcases h1 with he | ht
      · rw [he]; rfl
      · exact ht
    unfold validate_message validate_message_chk
    simp [h1, htrim]
  · have htrim : pyStrip message ≠ "" := fun ht => h1 (Or.inr ht)
    have hne : message ≠ "" := fun he => h1 (Or.inl he)
    by_cases h2 : message.length > MAX_MESSAGE_LENGTH
    · unfold validate_message validate_message_chk
      rw [if_neg h1, if_pos h2]
      simp [h2]
    · obtain ⟨c, cs, hmd⟩ := data_cons_of_ne_empty message hne
      unfold validate_message
      rw [validate_message_chk_cons message c cs hmd h1 h2]
      by_cases h3 : 5 * (c :: cs).count c > 4 * (c :: cs).length
      · rw [if_pos h3]
        simp only [Option.getD_some]
        constructor
        · intro _
          exact Or.inr (Or.inr ⟨c, cs, hmd, by rw [hmd]; exact h3⟩)
        · intro _
          trivial
      · rw [if_neg h3]
        simp only [Option.getD_some]
        constructor
        · intro hfalse
          exact absurd hfalse (by simp)
        · intro hrhs
          exfalso
          rcases hrhs with ht | hl | ⟨c', cs', heq, hcount⟩
          · exact htrim ht
          · exact h2 hl
          · rw [hmd] at heq
            injection heq with hc hcs
            rw [hmd] at hcount
            rw [← hc] at hcount
            exact h3 hcount

/-- Witness for C2 (amended) at a concrete input: the spec's spam example
"aaaaaaaaaa" is rejected. -/
theorem validate_message_reject_iff_witness :
    (validate_message "aaaaaaaaaa").1 = false :=
  (validate_message_reject_iff "aaaaaaaaaa").mpr
    (Or.inr (Or.inr ⟨'a', "aaaaaaaaa".data, by decide, by decide⟩))

-- ===== INTENT DETECTION (app.py INTENTS, detect_intent) =====

/-- A reply candidate: app.py mixes literal strings with lambdas resolved at
selection time (current time, current date, random joke). -/
inductive RCand
  | lit (s : String)
  | computed
deriving Repr, DecidableEq

/-- One entry of the app.py INTENTS dict: name, regex pattern sources, reply
candidates, confidence.  Confidences carry the source's decimal literals as
exact rationals. -/
structure IntentRule where
  name : String
  patterns : List String
  responses : List RCand
  confidence : ℚ

/-- The app.py INTENTS table, in its (insertion-ordered) iteration order. -/
def INTENTS : List IntentRule := [
  { name := "greeting",
    patterns := [r"\b(hello|hi|hey|greetings|good\s+(morning|afternoon|evening)|howdy|sup)\b"],
    responses := [
      .lit "Hello! I'm here to help. What can I do for you today? 👋",
      .lit "Hi there! How can I assist you? 😊",
      .lit "Hey! Welcome! What would you like to know?",
      .lit "Greetings! How may I help you today?"],
    confidence := 0.9 },
  { name := "wellbeing",
    patterns := [
      r"how\s+are\s+you",
      r"how'?s\s+it\s+going",
      r"what'?s\s+up",
      r"how\s+do\s+you\s+do"],
    responses := [
      .lit "I'm doing great, thanks for asking! How can I help you today? 😊",
      .lit "All systems running smoothly! How about you?",
      .lit "I'm functioning perfectly! What can I do for you?",
      .lit "Doing wonderful! How are you doing?"],
    confidence := 0.85 },
  { name := "capabilities",
    patterns := [
      r"what\s+can\s+you\s+do",
      r"your\s+capabilities",
      r"what\s+are\s+you\s+capable\s+of",
      r"what\s+do\s+you\s+do"],
    responses := [
      .lit "I can chat with you, answer questions, help with tasks, check time/date, tell jokes, and more! Just ask away! 💡",
      .lit "I'm here to assist with conversations, provide information, and help you with various tasks. Type /help for commands!"],
    confidence := 0.9 },
  { name := "help",
    patterns := [
      r"\bhelp\b",
      r"\bassist(ance)?\b",
      r"\bsupport\b",
      r"need\s+help"],
    responses := [
      .lit "I'm here to help! You can ask me questions, use commands (type /help), or just chat naturally! 🤝"],
    confidence := 0.8 },
  { name := "time",
    patterns := [
      r"\b(what\s+)?time(\s+is\s+it)?\b",
      r"current\s+time",
      r"o'clock",
      r"tell\s+me\s+the\s+time"],
    responses := [.computed],
    confidence := 0.95 },
  { name := "date",
    patterns := [
      r"\b(what\s+)?date(\s+is\s+it)?\b",
      r"what\s+day\s+is\s+it",
      r"today'?s\s+date",
      r"current\s+date"],
    responses := [.computed],
    confidence := 0.95 },
  { name := "thanks",
    patterns := [r"\b(thank\s*you|thanks|thx|appreciate\s+it|grateful)\b"],
    responses := [
      .lit "You're welcome! 😊",
      .lit "Happy to help! 🤗",
      .lit "Anytime! Glad I could assist!",
      .lit "My pleasure! Let me know if you need anything else!"],
    confidence := 0.9 },
  { name := "goodbye",
    patterns := [r"\b(bye|goodbye|see\s+you|farewell|later|cya|take\s+care)\b"],
    responses := [
      .lit "Goodbye! Have a wonderful day! 👋",
      .lit "Take care! Come back anytime! 😊",
      .lit "See you later! It was nice chatting with you!",
      .lit "Farewell! Feel free to return whenever you need help!"],
    confidence := 0.9 },
  { name := "name",
    patterns := [
      r"what'?s\s+your\s+name",
      r"who\s+are\s+you",
      r"introduce\s+yourself"],
    responses := [
      .lit "I'm ChatBot, your friendly AI assistant! 🤖",
      .lit "You can call me ChatBot - I'm here to help you! 😊"],
    confidence := 0.9 },
  { name := "joke",
    patterns := [
      r"\b(tell\s+me\s+)?a?\s*joke\b",
      r"make\s+me\s+laugh",
      r"something\s+funny"],
    responses := [.computed],
    confidence := 0.85 }]

/-- The inner loop of app.py `detect_intent` over one rule's patterns.
`rs pattern` abstracts `re.search(pattern, message_lower, re.IGNORECASE)`
for the already-fixed normalized message. -/
def intent_step (rs : String → Bool) (best : String × ℚ) (intent_data : IntentRule) :
    String × ℚ :=
  intent_data.patterns.foldl
    (fun best pattern =>
      if rs pattern then
        if intent_data.confidence > best.2 then (intent_data.name, intent_data.confidence)
        else best
      else best)
    best

/-- app.py `detect_intent`: normalize the message, scan all rules in
registration order, keep the strictly best confidence seen so far.  The regex
engine is abstracted as the Boolean oracle `rsfull pattern text`; the rest is
the source's loop.  As a pure function of `rsfull` and `message` it is
deterministic across repeated calls. -/
def detect_intent (rsfull : String → String → Bool) (message : String) : String × ℚ :=
  INTENTS.foldl (intent_step (fun p => rsfull p (pyStrip (pyLower message)))) ("unknown", 0)

-- ===== INTENT LEMMAS =====

theorem pat_foldl_eval (rs : String → Bool) (nm : String) (conf : ℚ)
    (ps : List String) (b : String × ℚ) :
    ps.foldl
      (fun best pattern =>
        if rs pattern then
          if conf > best.2 then (nm, conf) else best
        else best)
      b
    = if ps.any rs ∧ conf > b.2 then (nm, conf) else b := by
  induction ps generalizing b with
  | nil => simp
  | cons p ps ih =>
      simp only [List.foldl_cons, List.any_cons]
      by_cases hp : rs p
      · by_cases hc : conf > b.2
        · rw [if_pos hp, if_pos hc, ih]
          have hnot : ¬(conf > ((nm, conf) : String × ℚ).2) := lt_irrefl conf
          rw [if_neg (fun h => hnot h.2)]
          simp [hp, hc]
        · rw [if_pos hp, if_neg hc, ih]
          simp [hp, hc]
      · rw [if_neg hp, ih]
        simp [hp]

theorem intent_step_eval (rs : String → Bool) (b : String × ℚ) (r : IntentRule) :
    intent_step rs b r =
      if r.patterns.any rs ∧ r.confidence > b.2 then (r.name, r.confidence) else b :=
  pat_foldl_eval rs r.name r.confidence r.patterns b

/-- The scan over a rule list, characterized: either no firing rule improves
on the accumulator and it is returned unchanged, or the list splits around a
firing winner of maximal confidence, every firing rule before which has
strictly smaller confidence (first-registered wins ties). -/
theorem intent_foldl_spec (rs : String → Bool) (l : List IntentRule) (b : String × ℚ) :
    ((∀ r ∈ l, r.patterns.any rs → r.confidence ≤ b.2) ∧
      l.foldl (intent_step rs) b = b) ∨
    (∃ l1 r l2, l = l1 ++ r :: l2 ∧ r.patterns.any rs ∧ b.2 < r.confidence ∧
      l.foldl (intent_step rs) b = (r.name, r.confidence) ∧
      (∀ s ∈ l, s.patterns.any rs → s.confidence ≤ r.confidence) ∧
      (∀ s ∈ l1, s.patterns.any rs → s.confidence < r.confidence)) := by
  induction l generalizing b with
  | nil => exact Or.inl ⟨by simp, rfl⟩
  | cons r l ih =>
      rw [List.foldl_cons, intent_step_eval]
      by_cases hr : r.patterns.any rs ∧ r.confidence > b.2
      · rw [if_pos hr]
        rcases ih (r.name, r.confidence) with ⟨hall, heq⟩ | ⟨l1, w, l2, hsplit, hfire, hgt, heq, hmax, hstrict⟩
        · refine Or.inr ⟨[], r, l, by simp, hr.1, hr.2, heq, ?_, by simp⟩
          intro s hs hfs
          rcases List.mem_cons.mp hs with hs | hs
          · subst hs; exact le_refl _
          · exact hall s hs hfs
        · refine Or.inr ⟨r :: l1, w, l2, by rw [hsplit]; rfl, hfire, lt_trans hr.2 hgt, heq, ?_, ?_⟩
          · intro s hs hfs
            rcases List.mem_cons.mp hs with hs | hs
            · subst hs; exact le_of_lt hgt
            · exact hmax s hs hfs
          · intro s hs hfs
            rcases List.mem_cons.mp hs with hs | hs
            · subst hs; exact hgt
            · exact hstrict s hs hfs
      · rw [if_neg hr]
        have hrle : r.patterns.any rs → r.confidence ≤ b.2 := by
          intro hf
          by_contra hlt
          exact hr ⟨hf, lt_of_not_le hlt⟩
        rcases ih b with ⟨hall, heq⟩ | ⟨l1, w, l2, hsplit, hfire, hgt, heq, hmax, hstrict⟩
        · refine Or.inl ⟨?_, heq⟩
          intro s hs hfs
          rcases List.mem_cons.mp hs with hs | hs
          · subst hs; exact hrle hfs
          · exact hall s hs hfs
        · refine Or.inr ⟨r :: l1, w, l2, by rw [hsplit]; rfl, hfire, hgt, heq, ?_, ?_⟩
          · intro s hs hfs
            rcases List.mem_cons.mp hs with hs | hs
            · subst hs; exact le_of_lt (lt_of_le_of_lt (hrle hfs) hgt)
            · exact hmax s hs hfs
          · intro s hs hfs
            rcases List.mem_cons.mp hs with hs | hs
            · subst hs; exact lt_of_le_of_lt (hrle hfs) hgt
            · exact hstrict s hs hfs

theorem INTENTS_confidence_pos : ∀ r ∈ INTENTS, 0 < r.confidence := by
  intro r hr
  fin_cases hr <;> norm_num

-- ===== CLAIM C3 =====

/-- C3: over the fixed startup rule set, intent classification returns the
label and confidence of a firing rule of maximal confidence, ties resolved
in favor of the first-registered rule (every firing rule registered earlier
than the winner has strictly smaller confidence); with no firing rule it
returns (unknown, 0).  `rsfull` abstracts the regex engine, so the statement
covers every input string; determinism across repeated calls holds because
`detect_intent` is a pure function of its arguments. -/
theorem detect_intent_spec (rsfull : String → String → Bool) (message : String) :
    ((∀ r ∈ INTENTS,
        ¬r.patterns.any (fun p => rsfull p (pyStrip (pyLower message)))) →
      detect_intent rsfull message = ("unknown", 0)) ∧
    ((∃ r ∈ INTENTS,
        r.patterns.any (fun p => rsfull p (pyStrip (pyLower message)))) →
      ∃ l1 r l2, INTENTS = l1 ++ r :: l2 ∧
        r.patterns.any (fun p => rsfull p (pyStrip (pyLower message))) ∧
        detect_intent rsfull message = (r.name, r.confidence) ∧
        (∀ s ∈ INTENTS,
          s.patterns.any (fun p => rsfull p (pyStrip (pyLower message))) →
            s.confidence ≤ r.confidence) ∧
        (∀ s ∈ l1,
          s.patterns.any (fun p => rsfull p (pyStrip (pyLower message))) →
            s.confidence < r.confidence)) := by
  constructor
  · intro hnone
    rcases intent_foldl_spec (fun p => rsfull p (pyStrip (pyLower message))) INTENTS
        ("unknown", 0) with ⟨_, heq⟩ | ⟨l1, w, l2, hsplit, hfire, _, _, _, _⟩
    · exact heq
    · exact absurd hfire (hnone w (by rw [hsplit]; simp))
  · rintro ⟨r0, hr0, hf0⟩
    rcases intent_foldl_spec (fun p => rsfull p (pyStrip (pyLower message))) INTENTS
        ("unknown", 0) with ⟨hall, _⟩ | ⟨l1, w, l2, hsplit, hfire, hgt, heq, hmax, hstrict⟩
    · exact absurd (hall r0 hr0 hf0) (not_le.mpr (INTENTS_confidence_pos r0 hr0))
    · exact ⟨l1, w, l2, hsplit, hfire, heq, hmax, hstrict⟩

/-- Witness for C3 at a concrete input: with no pattern firing, detection
returns (unknown, 0). -/
theorem detect_intent_spec_witness :
    detect_intent (fun _ _ => false) "xyz" = ("unknown", 0) :=
  (detect_intent_spec (fun _ _ => false) "xyz").1 (by decide)

-- ===== ENVIRONMENT (clock, uuid, randomness, regex, OpenAI, json) =====

/-- One message of an OpenAI chat request (`{"role": ..., "content": ...}`). -/
structure ChatMsg where
  role : String
  content : String
deriving Repr, DecidableEq

/-- The export document of app.py `export_conversation`. -/
structure ExportData where
  conversation_id : String
  export_time : String
  message_count : Nat
  messages : List Msg
deriving Repr, DecidableEq

/-- The external collaborators and nondeterministic inputs of one request:
wall clock renderings, uuids, `random.choice` draws, the regex engine, the
OpenAI client and `json.dumps`, all passed explicitly.  `computedText` is
what a computed (lambda) reply candidate produces when resolved at selection
time (a current time/date rendering or a random joke). -/
structure Env where
  ts : String
  timeStr : String
  dateStr : String
  nowIso : String
  jokeIdx : Nat
  pickIdx : Nat
  id1 : String
  id2 : String
  computedText : String
  reSearch : String → String → Bool
  clientConfigured : Bool
  complete : List ChatMsg → Option String
  dumps : ExportData → String

/-- The app.py jokes list. -/
def jokes_list : List String := [
  "Why do programmers prefer dark mode? Because light attracts bugs! 🐛",
  "Why did the programmer quit his job? Because he didn't get arrays. 📊",
  "How many programmers does it take to change a light bulb? None — it's a hardware problem. 💡",
  "Why do Java developers wear glasses? Because they can't C#! 👓",
  "What's a programmer's favorite hangout place? Foo Bar! 🍺",
  "Why did the developer go broke? Because he used up all his cache! 💰",
  "What do you call a programmer from Finland? Nerdic! 🇫🇮",
  "Why do Python programmers have low self-esteem? They're constantly comparing themselves to others! 🐍",
  "What's the object-oriented way to become wealthy? Inheritance! 💎",
  "Why did the variable break up with the constant? She needed some space! 🚀",
  "What's a computer's favorite snack? Microchips! 🍟",
  "Why was the JavaScript developer sad? Because he didn't Node how to Express himself! 😢"]

/-- app.py `get_random_joke`: `random.choice(jokes)`, the draw supplied by the
environment. -/
def get_random_joke (env : Env) : String :=
  jokes_list.getD (env.jokeIdx % jokes_list.length) ""

/-- app.py `get_help_text` (constant). -/
def get_help_text : String :=
  "📋 **Available Commands:**\n\n**Information:**\n• `/time` - Show current time\n• `/date` - Show current date\n• `/joke` - Tell a random joke\n• `/stats` - View conversation statistics\n\n**History:**\n• `/history` - View recent messages\n• `/search <query>` - Search your messages\n• `/clear` - Clear conversation history\n• `/export` - Export conversation as JSON\n\n**Other:**\n• `/whoami` - Show your session info\n• `/help` - Show this help message\n\n💡 **Tip:** You can also just chat naturally with me!"

-- ===== COMMAND HANDLERS (app.py) =====

/-- The result dict of an app.py command handler: reply text, a type tag
(info, success or error) and, for export only, the full serialized document.
app.py `handle_local_command` in fact returns such a dict on every path, so
the `if command_result:` truthiness test in `get_response` always passes. -/
structure CmdResult where
  reply : String
  type : String
  export_data : Option String := none
deriving Repr, DecidableEq

/-- Python `text.split(maxsplit=1)` packaged as (first token, remainder):
the remainder keeps internal and trailing whitespace but loses the leading
run; a missing second part is the empty string (app.py lines 276-278). -/
def splitOnceWs (s : String) : String × String :=
  let l := s.data.dropWhile Char.isWhitespace
  let command := l.takeWhile (fun c => !c.isWhitespace)
  let rest := (l.dropWhile (fun c => !c.isWhitespace)).dropWhile Char.isWhitespace
  (⟨command⟩, ⟨rest⟩)

/-- app.py `get_conversation_history` (default limit 10): header plus the
last `limit` messages, each truncated to 100 characters with an ellipsis. -/
def get_conversation_history (st : Store) (cid : String) (limit : Nat := 10) : String :=
  let msgs := getMsgs st cid
  if msgs.isEmpty then "📜 No conversation history yet."
  else
    String.intercalate "\n"
      (("📜 **Recent Messages** (last " ++ toString (min limit msgs.length) ++ "):\n") ::
        (lastN limit msgs).map (fun msg =>
          let icon := if msg.role = "user" then "👤" else "🤖"
          let who := if msg.role = "user" then "You" else "Bot"
          let text := if msg.message.length > 100 then ⟨msg.message.data.take 97⟩ ++ "..."
                      else msg.message
          icon ++ " **[" ++ msg.timestamp ++ "] " ++ who ++ ":** " ++ text))

/-- app.py `clear_conversation_history`: when the id is a key of the store,
report the count and reset the entry to the empty list (the key survives);
otherwise report that there is nothing to clear and leave the store alone. -/
def clear_conversation_history (st : Store) (cid : String) : CmdResult × Store :=
  match store_find st cid with
  | some msgs =>
      ({ reply := "🗑️ Cleared " ++ toString msgs.length ++ " message(s) from your history.",
         type := "success" }, store_set st cid [])
  | none => ({ reply := "📭 No history to clear.", type := "info" }, st)

/-- Python `str.split()` word count: whitespace-separated tokens, empties
dropped. -/
def wordCount (s : String) : Nat :=
  ((s.split (fun c => c.isWhitespace)).filter (fun w => w ≠ "")).length

/-- app.py `get_conversation_stats`. -/
def get_conversation_stats (st : Store) (cid : String) : CmdResult :=
  let msgs := getMsgs st cid
  if msgs.isEmpty then { reply := "📊 No statistics available yet.", type := "info" }
  else
    let user_msgs := msgs.filter (fun m => m.role = "user")
    let bot_msgs := msgs.filter (fun m => m.role = "bot")
    let total_words_user := (user_msgs.map (fun m => wordCount m.message)).sum
    let total_words_bot := (bot_msgs.map (fun m => wordCount m.message)).sum
    let ts0 := ((msgs.head?).map Msg.timestamp).getD "N/A"
    let ts1 := ((msgs.getLast?).map Msg.timestamp).getD "N/A"
    { reply := "📊 **Conversation Statistics:**\n\n💬 Total messages: " ++ toString msgs.length ++
        "\n👤 Your messages: " ++ toString user_msgs.length ++ " (" ++ toString total_words_user ++
        " words)\n🤖 Bot messages: " ++ toString bot_msgs.length ++ " (" ++ toString total_words_bot ++
        " words)\n⏰ First message: " ++ ts0 ++ "\n🕐 Last message: " ++ ts1 ++
        "\n🔑 Session ID: `" ++ (⟨cid.data.take 16⟩ : String) ++ "...`",
      type := "info" }

/-- app.py `search_conversation`: the matching messages, in chronological
order (`[m for m in msgs if query_lower in m['message'].lower()]`). -/
def search_results (msgs : List Msg) (query : String) : List Msg :=
  msgs.filter (fun m => containsChars (pyLower query).data (pyLower m.message).data)

/-- app.py `search_conversation`: case-insensitive substring search, shows
the last 5 matches; empty history and empty result set are informational. -/
def search_conversation (st : Store) (cid : String) (query : String) : CmdResult :=
  let msgs := getMsgs st cid
  if msgs.isEmpty then { reply := "🔍 No messages to search.", type := "info" }
  else
    let results := search_results msgs query
    if results.isEmpty then
      { reply := "🔍 No messages found matching \"" ++ query ++ "\"", type := "info" }
    else
      { reply := String.intercalate "\n"
          (("🔍 **Found " ++ toString results.length ++ " message(s) matching \"" ++ query ++ "\":**\n") ::
            (lastN 5 results).map (fun msg =>
              let role := if msg.role = "user" then "You" else "Bot"
              let text := if msg.message.length > 80 then ⟨msg.message.data.take 77⟩ ++ "..."
                          else msg.message
              "• **[" ++ msg.timestamp ++ "] " ++ role ++ ":** " ++ text)),
        type := "info" }

/-- app.py `export_conversation`: serialize the full (untruncated) message
sequence; the reply text carries a 500-character preview, the full
serialization rides in `export_data`. -/
def export_conversation (env : Env) (st : Store) (cid : String) : CmdResult :=
  let msgs := getMsgs st cid
  if msgs.isEmpty then { reply := "📭 No messages to export.", type := "info" }
  else
    let json_str := env.dumps ⟨cid, env.nowIso, msgs.length, msgs⟩
    { reply := "📦 **Conversation Export:**\n\nCopy the JSON below:\n\n```json\n" ++
        (⟨json_str.data.take 500⟩ : String) ++ "\n...\n```\n\n(Full export available via API)",
      type := "success",
      export_data := some json_str }

/-- app.py `handle_local_command`: lower-case and strip, split into command
and argument, special-case /search, dispatch through the handlers table,
unknown commands yield an error dict.  Only /clear and /clear_history mutate
the store.  The Python try/except around a handler call never fires in this
model (all handlers are total). -/
def handle_local_command (env : Env) (st : Store) (cmd cid : String) :
    CmdResult × Store :=
  let cmd_lower := pyStrip (pyLower cmd)
  let (command, argument) := splitOnceWs cmd_lower
  if command = "/search" then
    if argument = "" then
      ({ reply := "🔍 Usage: /search <query>\nExample: /search hello", type := "error" }, st)
    else (search_conversation st cid argument, st)
  else if command = "/time" then
    ({ reply := "⏰ Current time: " ++ env.timeStr, type := "info" }, st)
  else if command = "/date" then
    ({ reply := "📅 Today is " ++ env.dateStr, type := "info" }, st)
  else if command = "/help" ∨ command = "/commands" then
    ({ reply := get_help_text, type := "info" }, st)
  else if command = "/joke" then
    ({ reply := get_random_joke env, type := "info" }, st)
  else if command = "/history" then
    ({ reply := get_conversation_history st cid, type := "info" }, st)
  else if command = "/whoami" then
    ({ reply := "🔑 Your conversation ID: `" ++ cid ++ "`\n📊 Messages in session: " ++
        toString (getMsgs st cid).length, type := "info" }, st)
  else if command = "/clear" ∨ command = "/clear_history" then
    clear_conversation_history st cid
  else if command = "/stats" then
    (get_conversation_stats st cid, st)
  else if command = "/export" then
    (export_conversation env st cid, st)
  else
    ({ reply := "❌ Unknown command: " ++ command ++ "\nType /help for available commands.",
       type := "error" }, st)

-- ===== AI INTEGRATION (app.py ask_openai) =====

/-- The fixed system instruction of app.py `ask_openai`. -/
def SYSTEM_PROMPT : String :=
  "You are a helpful, friendly, and concise AI assistant. Provide clear and accurate responses. Use emojis sparingly for friendliness."

/-- app.py `ask_openai` reply when no OpenAI client is configured. -/
def AI_UNAVAILABLE_TEXT : String :=
  "🔴 AI features are currently unavailable. OpenAI API key not configured."

/-- app.py `ask_openai` reply when the API call raises (timeout, transport,
any exception). -/
def AI_DEGRADED_TEXT : String :=
  "🔴 I'm having trouble connecting to my AI brain right now. Please try again in a moment."

/-- The request body app.py `ask_openai` builds: the system prompt, then the
last CONTEXT_WINDOW messages of the session history (role bot mapped to
assistant, anything else to user), then the current user message. -/
def build_messages (user_history : List Msg) (user_message : String) : List ChatMsg :=
  ⟨"system", SYSTEM_PROMPT⟩ ::
    ((lastN CONTEXT_WINDOW user_history).map (fun msg =>
      ⟨if msg.role = "bot" then "assistant" else "user", msg.message⟩) ++
     [⟨"user", user_message⟩])

/-- app.py `ask_openai`: without a configured client return the fixed
unavailability text; otherwise send `build_messages` to the API, returning
the stripped completion on success and the fixed degraded-service text when
the call raises — the failure is never propagated. -/
def ask_openai (env : Env) (st : Store) (user_message cid : String) : String :=
  if !env.clientConfigured then AI_UNAVAILABLE_TEXT
  else
    match env.complete (build_messages (getMsgs st cid) user_message) with
    | some content => pyStrip content
    | none => AI_DEGRADED_TEXT

-- ===== THE CHAT ENDPOINT (app.py get_response) =====

/-- A JSON value in a response body: a string or null (the shapes
`get_response` actually emits). -/
inductive JVal
  | s (v : String)
  | nullv
deriving Repr, DecidableEq

/-- app.py `get_response` (the /get_response route): returns the HTTP status,
the response JSON object as an ordered key/value list (JSON_SORT_KEYS is
False), and the store after the request.  `rawMessage` is `data["message"]`;
resolution of a reply candidate (`response() if callable(response) else
response`) draws computed candidates from the environment clock/joke. -/
def resolveCand (env : Env) : RCand → String
  | .lit s => s
  | .computed => env.computedText

def get_response (env : Env) (st : Store) (rawMessage cid : String) :
    Nat × List (String × JVal) × Store :=
  let user_message := pyStrip rawMessage
  let v := validate_message user_message
  if v.1 = false then
    (400, [("error", JVal.s (v.2.getD ""))], st)
  else if pyStartsWith user_message "/" then
    let (command_result, st1) := handle_local_command env st user_message cid
    let st2 := save_message st1 cid "user" user_message env.id1 env.ts
    let st3 := save_message st2 cid "bot" command_result.reply env.id2 env.ts
    (200, [("reply", JVal.s command_result.reply),
           ("type", JVal.s command_result.type),
           ("timestamp", JVal.s env.ts)], st3)
  else
    let ic := detect_intent env.reSearch user_message
    let br :=
      if ic.1 ≠ "unknown" ∧ ic.2 ≥ (0.8 : ℚ) then
        let response_data := (((INTENTS.find? (fun r => r.name = ic.1)).map
          IntentRule.responses).getD [])
        (resolveCand env (response_data.getD (env.pickIdx % response_data.length) (.lit "")),
         "intent")
      else
        (ask_openai env st user_message cid, "ai")
    let st1 := save_message st cid "user" user_message env.id1 env.ts
    let st2 := save_message st1 cid "bot" br.1 env.id2 env.ts
    (200, [("reply", JVal.s br.1),
           ("timestamp", JVal.s env.ts),
           ("source", JVal.s br.2),
           ("intent", if ic.1 ≠ "unknown" then JVal.s ic.1 else JVal.nullv)], st2)

/-- A concrete environment used by the closed witness/counterexample
theorems: no intent fires, no OpenAI client, fixed clock renderings. -/
def env0 : Env :=
  { ts := "12:00 PM"
    timeStr := "12:00:00 PM"
    dateStr := "Sunday, October 12, 2025"
    nowIso := "2025-10-12T00:00:00"
    jokeIdx := 0
    pickIdx := 0
    id1 := "uuid-user"
    id2 := "uuid-bot"
    computedText := "computed"
    reSearch := fun _ _ => false
    clientConfigured := false
    complete := fun _ => none
    dumps := fun _ => "{}" }

-- ===== CLAIM C6 =====

/-- C6: for every input rejected by validation, the pipeline performs no
SessionStore append for that request — the store after the request is exactly
the store before — and a 400 error reply carrying the validation message is
returned instead. -/
theorem get_response_invalid_no_append (env : Env) (st : Store) (rawMessage cid : String)
    (h : (validate_message (pyStrip rawMessage)).1 = false) :
    get_response env st rawMessage cid =
      (400, [("error", JVal.s ((validate_message (pyStrip rawMessage)).2.getD ""))], st) := by
  unfold get_response
  simp only [h, if_pos]

/-- Witness for C6 at a concrete input: a whitespace-only message is rejected
with the validation text and the store stays empty. -/
theorem get_response_invalid_no_append_witness :
    (validate_message (pyStrip " ")).1 = false ∧
    get_response env0 [] " " "s" =
      (400, [("error", JVal.s ((validate_message (pyStrip " ")).2.getD ""))], []) :=
  ⟨by decide, get_response_invalid_no_append env0 [] " " "s" (by decide)⟩

-- ===== CLAIM C4 =====

/-- C4 counterexample: the successful response to the command input "/help"
carries the keys reply, type and timestamp only — no source label — refuting
the claim that the source label is always present on the command path. -/
theorem get_response_command_no_source :
    (get_response env0 [] "/help" "s").1 = 200 ∧
    (get_response env0 [] "/help" "s").2.1.map Prod.fst = ["reply", "type", "timestamp"] ∧
    ¬("source" ∈ (get_response env0 [] "/help" "s").2.1.map Prod.fst) := by
  refine ⟨?_, ?_, ?_⟩ <;> decide

/-- C4 (amended): a validation failure yields a 400 response whose only key
is error; a successful command-path response is {reply, type, timestamp}
(no source label); a successful intent- or AI-path response is
{reply, timestamp, source, intent} with the intent value null when no intent
fired. -/
theorem get_response_shape (env : Env) (st : Store) (rawMessage cid : String) :
    ((validate_message (pyStrip rawMessage)).1 = false →
      (get_response env st rawMessage cid).1 = 400 ∧
      (get_response env st rawMessage cid).2.1.map Prod.fst = ["error"]) ∧
    ((validate_message (pyStrip rawMessage)).1 = true →
      pyStartsWith (pyStrip rawMessage) "/" = true →
      (get_response env st rawMessage cid).1 = 200 ∧
      (get_response env st rawMessage cid).2.1.map Prod.fst = ["reply", "type", "timestamp"]) ∧
    ((validate_message (pyStrip rawMessage)).1 = true →
      pyStartsWith (pyStrip rawMessage) "/" = false →
      (get_response env st rawMessage cid).1 = 200 ∧
      (get_response env st rawMessage cid).2.1.map Prod.fst =
        ["reply", "timestamp", "source", "intent"]) := by
  refine ⟨?_, ?_, ?_⟩
  · intro h
    unfold get_response
    simp [h]
  · intro hv hc
    unfold get_response
    simp only [hv, hc]
    simp
  · intro hv hc
    unfold get_response
    simp only [hv, hc]
    simp

/-- Witness for C4 (amended) at a concrete input: the command "/time". -/
theorem get_response_shape_witness :
    (validate_message (pyStrip "/time")).1 = true ∧
    pyStartsWith (pyStrip "/time") "/" = true ∧
    (get_response env0 [] "/time" "s").2.1.map Prod.fst = ["reply", "type", "timestamp"] :=
  ⟨by decide, by decide,
    ((get_response_shape env0 [] "/time" "s").2.1 (by decide) (by decide)).2⟩

-- ===== CLAIM C8 =====

/-- C8: when the AI fallback path is taken, the gateway request is the fixed
system instruction, then (up to) the last CONTEXT_WINDOW prior messages of
the session as context, then the current message; the reply source is
labeled ai on every outcome; with no configured client the fixed
unavailability text is returned, when the call raises (timeout/failure) the
fixed degraded-service text is returned, and the failure is never propagated
— the endpoint still answers 200 with source ai. -/
theorem ask_openai_fallback (env : Env) (st : Store) (rawMessage cid : String)
    (hvalid : (validate_message (pyStrip rawMessage)).1 = true)
    (hnotcmd : pyStartsWith (pyStrip rawMessage) "/" = false)
    (hai : ¬((detect_intent env.reSearch (pyStrip rawMessage)).1 ≠ "unknown" ∧
        (detect_intent env.reSearch (pyStrip rawMessage)).2 ≥ (0.8 : ℚ))) :
    get_response env st rawMessage cid =
      (200, [("reply", JVal.s (ask_openai env st (pyStrip rawMessage) cid)),
             ("timestamp", JVal.s env.ts),
             ("source", JVal.s "ai"),
             ("intent", if (detect_intent env.reSearch (pyStrip rawMessage)).1 ≠ "unknown"
                then JVal.s (detect_intent env.reSearch (pyStrip rawMessage)).1
                else JVal.nullv)],
       save_message (save_message st cid "user" (pyStrip rawMessage) env.id1 env.ts)
         cid "bot" (ask_openai env st (pyStrip rawMessage) cid) env.id2 env.ts) ∧
    (∃ older ctx, older ++ ctx = (getMsgs st cid).map (fun msg =>
        (⟨if msg.role = "bot" then "assistant" else "user", msg.message⟩ : ChatMsg)) ∧
      ctx.length = min CONTEXT_WINDOW (getMsgs st cid).length ∧
      build_messages (getMsgs st cid) (pyStrip rawMessage) =
        ⟨"system", SYSTEM_PROMPT⟩ :: (ctx ++ [⟨"user", pyStrip rawMessage⟩])) ∧
    (env.clientConfigured = false →
      ask_openai env st (pyStrip rawMessage) cid = AI_UNAVAILABLE_TEXT) ∧
    (env.clientConfigured = true →
      env.complete (build_messages (getMsgs st cid) (pyStrip rawMessage)) = none →
      ask_openai env st (pyStrip rawMessage) cid = AI_DEGRADED_TEXT) ∧
    (∀ content, env.clientConfigured = true →
      env.complete (build_messages (getMsgs st cid) (pyStrip rawMessage)) = some content →
      ask_openai env st (pyStrip rawMessage) cid = pyStrip content) := by
  refine ⟨?_, ?_, ?_, ?_, ?_⟩
  · unfold get_response
    simp only [hvalid, hnotcmd]
    simp [hai]
  · refine ⟨((getMsgs st cid).take ((getMsgs st cid).length - CONTEXT_WINDOW)).map (fun msg =>
        (⟨if msg.role = "bot" then "assistant" else "user", msg.message⟩ : ChatMsg)),
      (lastN CONTEXT_WINDOW (getMsgs st cid)).map (fun msg =>
        (⟨if msg.role = "bot" then "assistant" else "user", msg.message⟩ : ChatMsg)),
      ?_, ?_, ?_⟩
    · rw [← List.map_append]
      unfold lastN
      rw [List.take_append_drop]
    · rw [List.length_map, lastN_length]
    · rfl
  · intro hnc
    unfold ask_openai
    rw [hnc]
    rfl
  · intro hc hnone
    unfold ask_openai
    rw [hc, hnone]
    rfl
  · intro content hc hsome
    unfold ask_openai
    rw [hc, hsome]
    rfl

/-- Witness for C8 at a concrete input: with no configured client, the AI
path answers with the fixed unavailability text. -/
theorem ask_openai_fallback_witness :
    (validate_message (pyStrip "tell me something please")).1 = true ∧
    ask_openai env0 [] (pyStrip "tell me something please") "s" = AI_UNAVAILABLE_TEXT :=
  ⟨by decide,
    (ask_openai_fallback env0 [] "tell me something please" "s"
      (by decide) (by decide) (by decide)).2.2.1 rfl⟩

-- ===== CLAIM C5 =====

/-- C5 counterexample: clearing a session that is present in the store but
already empty (the state every clear leaves behind, since clearing resets
the entry rather than deleting the key) yields the success reply
"Cleared 0 message(s)" — not the informational nothing-to-clear result the
claim promises for an already-empty session. -/
theorem clear_already_empty_counterexample :
    getMsgs [("s", [])] "s" = [] ∧
    (clear_conversation_history [("s", [])] "s").1.type = "success" ∧
    (clear_conversation_history [("s", [])] "s").1.reply =
      "🗑️ Cleared 0 message(s) from your history." ∧
    (clear_conversation_history [("s", [])] "s").1.reply ≠ "📭 No history to clear." := by
  refine ⟨?_, ?_, ?_, ?_⟩ <;> decide

/-- C5 (amended): clear empties the session's entry; an entry exists
afterwards exactly when one existed before (so a never-seen id gains no
entry, and in particular no nonempty one); when the id is present the result
is a success reporting the count removed before clearing (0 for a
present-but-empty session), and only when the id is absent is the
informational no-history result returned. -/
theorem clear_conversation_spec (st : Store) (cid : String) :
    getMsgs (clear_conversation_history st cid).2 cid = [] ∧
    store_find (clear_conversation_history st cid).2 cid =
      (store_find st cid).map (fun _ => []) ∧
    (clear_conversation_history st cid).1.reply =
      (if (store_find st cid).isSome then
        "🗑️ Cleared " ++ toString (getMsgs st cid).length ++ " message(s) from your history."
      else "📭 No history to clear.") ∧
    (clear_conversation_history st cid).1.type =
      (if (store_find st cid).isSome then "success" else "info") := by
  cases h : store_find st cid with
  | none =>
      refine ⟨?_, ?_, ?_, ?_⟩ <;> simp [clear_conversation_history, h, getMsgs]
  | some msgs =>
      refine ⟨?_, ?_, ?_, ?_⟩ <;>
        simp [clear_conversation_history, h, getMsgs, getMsgs_set, store_find_set]

-- ===== THE INTERACTIVE VARIANT (cli_chat.py) =====

/-- A cli_chat.py message dict: keys id, who, text, ts. -/
structure CliMsg where
  id : String
  who : String
  text : String
  ts : String
deriving Repr, DecidableEq

/-- cli_chat.py `handle_search`: the matching messages, in chronological
order (`[msg for msg in messages if query_lower in msg.get('text','').lower()]`). -/
def cli_search_results (messages : List CliMsg) (query : String) : List CliMsg :=
  messages.filter (fun m => containsChars (pyLower query).data (pyLower m.text).data)

/-- What cli_chat.py `handle_search` prints, as data: kind "error" stands for
the print_error usage hint, kind "info" for the informational no-matches
message, kind "results" for the printed block of the last 20 matches. -/
structure CliSearchOut where
  kind : String
  shown : List CliMsg
deriving Repr, DecidableEq

/-- cli_chat.py `handle_search`. -/
def handle_search (messages : List CliMsg) (query : String) : CliSearchOut :=
  if query = "" then ⟨"error", []⟩
  else
    let results := cli_search_results messages query
    if results.isEmpty then ⟨"info", []⟩
    else ⟨"results", lastN 20 results⟩

-- ===== CLAIM C7 =====

/-- C7: both search variants match by case-insensitive substring against the
message text and show at most the last K matches — K = 5 in the server
variant, K = 20 in the interactive variant — as a suffix of the
chronologically ordered match list (order preserved, all of them matches),
and an empty history or empty result set yields an informational reply, not
an error. -/
theorem search_last_k (st : Store) (cid query : String) (cmsgs : List CliMsg)
    (hq : query ≠ "") :
    (getMsgs st cid = [] →
      search_conversation st cid query = ⟨"🔍 No messages to search.", "info", none⟩) ∧
    (getMsgs st cid ≠ [] → search_results (getMsgs st cid) query = [] →
      search_conversation st cid query =
        ⟨"🔍 No messages found matching \"" ++ query ++ "\"", "info", none⟩) ∧
    ((lastN 5 (search_results (getMsgs st cid) query)).length ≤ 5 ∧
      (search_results (getMsgs st cid) query).take
          ((search_results (getMsgs st cid) query).length - 5) ++
        lastN 5 (search_results (getMsgs st cid) query) =
        search_results (getMsgs st cid) query ∧
      (5 ≤ (search_results (getMsgs st cid) query).length →
        (lastN 5 (search_results (getMsgs st cid) query)).length = 5)) ∧
    (cli_search_results cmsgs query = [] → handle_search cmsgs query = ⟨"info", []⟩) ∧
    (cli_search_results cmsgs query ≠ [] →
      handle_search cmsgs query = ⟨"results", lastN 20 (cli_search_results cmsgs query)⟩) ∧
    ((lastN 20 (cli_search_results cmsgs query)).length ≤ 20 ∧
      (cli_search_results cmsgs query).take ((cli_search_results cmsgs query).length - 20) ++
        lastN 20 (cli_search_results cmsgs query) = cli_search_results cmsgs query ∧
      (20 ≤ (cli_search_results cmsgs query).length →
        (lastN 20 (cli_search_results cmsgs query)).length = 20)) := by
  refine ⟨?_, ?_, ⟨?_, ?_, ?_⟩, ?_, ?_, ⟨?_, ?_, ?_⟩⟩
  · intro h
    unfold search_conversation
    simp [h]
  · intro hne hres
    unfold search_conversation
    rw [if_neg (by simp [hne])]
    simp [hres]
  · rw [lastN_length]; omega
  · exact List.take_append_drop _ _
  · intro h5; rw [lastN_length]; omega
  · intro h
    unfold handle_search
    rw [if_neg hq]
    simp [h]
  · intro h
    unfold handle_search
    rw [if_neg hq]
    simp [h]
  · rw [lastN_length]; omega
  · exact List.take_append_drop _ _
  · intro h20; rw [lastN_length]; omega

/-- Witness for C7 at a concrete input: searching an empty server session is
informational. -/
theorem search_last_k_witness :
    search_conversation [] "s" "foo" = ⟨"🔍 No messages to search.", "info", none⟩ :=
  (search_last_k [] "s" "foo" [] (by decide)).1 rfl

-- ===== EXPORT / IMPORT (cli_chat.py) =====

/-- An entry of a parsed import file: cli_chat.py keeps exactly the entries
that are dicts containing a text key (a message), and drops anything else. -/
inductive ImpEntry
  | msgEntry (m : CliMsg)
  | badEntry
deriving Repr, DecidableEq

/-- cli_chat.py `handle_export`: nothing is written for an empty history
(informational message, result `none`); otherwise the export file receives
exactly the session's message list (json.dump of the list; serialization is
faithful, so the file content is modelled as the list itself). -/
def handle_export (messages : List CliMsg) : Option (List CliMsg) :=
  if messages.isEmpty then none else some messages

/-- cli_chat.py `handle_import` on an already-parsed list document: keep the
entries that are message dicts, refuse the import when none remain, and
otherwise EXTEND the current history with them (`messages.extend`). -/
def handle_import (messages : List CliMsg) (fileData : List ImpEntry) :
    Option (List CliMsg) :=
  let valid_messages := fileData.filterMap (fun e =>
    match e with
    | .msgEntry m => some m
    | .badEntry => none)
  if valid_messages.isEmpty then none
  else some (messages ++ valid_messages)

-- ===== CLAIM C9 =====

/-- C9 counterexample: exporting a one-message session and re-importing the
file into that same (still populated) session duplicates the message — the
importer extends the history instead of replacing it, so the ordered message
texts after the round trip differ from the exported ones. -/
theorem export_import_counterexample :
    handle_export [⟨"1", "me", "hi", "t"⟩] = some [⟨"1", "me", "hi", "t"⟩] ∧
    handle_import [⟨"1", "me", "hi", "t"⟩] [.msgEntry ⟨"1", "me", "hi", "t"⟩] =
      some [⟨"1", "me", "hi", "t"⟩, ⟨"1", "me", "hi", "t"⟩] ∧
    ([(⟨"1", "me", "hi", "t"⟩ : CliMsg), ⟨"1", "me", "hi", "t"⟩].map CliMsg.text ≠
      [(⟨"1", "me", "hi", "t"⟩ : CliMsg)].map CliMsg.text) := by
  refine ⟨?_, ?_, ?_⟩ <;> decide

/-- C9 (amended): export writes exactly the session's ordered message list,
and import appends the file's messages to the current history, so the
appended segment reproduces the exported ordered texts; the round trip on
the session history itself holds exactly when the import target is empty
(e.g. the session is cleared between export and import). -/
theorem filterMap_msgEntry (l : List CliMsg) :
    (l.map ImpEntry.msgEntry).filterMap (fun e =>
      match e with
      | .msgEntry m => some m
      | .badEntry => none) = l := by
  induction l with
  | nil => rfl
  | cons m rest ih => simp only [List.map_cons, List.filterMap_cons, ih]

theorem export_import_roundtrip (messages cur : List CliMsg) (h : messages ≠ []) :
    handle_export messages = some messages ∧
    handle_import cur (messages.map ImpEntry.msgEntry) = some (cur ++ messages) ∧
    handle_import [] (messages.map ImpEntry.msgEntry) = some messages := by
  have hfm := filterMap_msgEntry messages
  have hne : ¬messages.isEmpty = true := by
    cases messages with
    | nil => exact absurd rfl h
    | cons m rest => simp
  refine ⟨?_, ?_, ?_⟩
  · unfold handle_export
    rw [if_neg hne]
  · unfold handle_import
    simp only [hfm]
    rw [if_neg hne]
  · unfold handle_import
    simp only [hfm]
    rw [if_neg hne]
    simp

/-- Witness for C9 (amended) at a concrete input. -/
theorem export_import_roundtrip_witness :
    handle_export [(⟨"1", "me", "hi", "t"⟩ : CliMsg)] = some [⟨"1", "me", "hi", "t"⟩] ∧
    handle_import [] ([(⟨"1", "me", "hi", "t"⟩ : CliMsg)].map ImpEntry.msgEntry) =
      some [⟨"1", "me", "hi", "t"⟩] :=
  ⟨(export_import_roundtrip [⟨"1", "me", "hi", "t"⟩] [] (by decide)).1,
   (export_import_roundtrip [⟨"1", "me", "hi", "t"⟩] [] (by decide)).2.2⟩
